import Mathlib

/-! Shallow embedding of the AdSnap Studio glue layer: the per-operation
HTTP request builders (src/services/shadow.py, packshot.py,
lifestyle_shot.py, generative_fills.py, erase_foreground.py,
prompt_enhancement.py), the sync-mode response normalizers and the
result poller of src/app.py.  Network effects are modelled by oracles
(HEAD outcomes, chat-completion outcomes) passed in explicitly; a
builder returns `Except BErr Payload`, the JSON body it would POST, so
an error value means the builder fails before any network call. -/

namespace AdSnap

/-- Truthiness of a Python `Optional[str]`: `None` and `""` are falsy. -/
def pyStrTruthy : Option String → Bool
  | none => false
  | some s => !s.isEmpty

/-- Truthiness of a Python `Optional[bytes]` (bytes as a list of byte values):
`None` and `b""` are falsy. -/
def pyBytesTruthy : Option (List Nat) → Bool
  | none => false
  | some bs => !bs.isEmpty

/-- Truthiness of a Python `Optional[List[int]]`: `None` and `[]` are falsy. -/
def pyIListTruthy : Option (List Int) → Bool
  | none => false
  | some l => !l.isEmpty

/-- Python `a or b` on optional strings: `b` when `a` is falsy.  Models
`api_key = api_key or os.getenv(...)` in every builder. -/
def pyOr (a b : Option String) : Option String :=
  if pyStrTruthy a then a else b

/-- Standard base64 alphabet, for `base64.b64encode`. -/
def b64chars : List Char :=
  "ABCDEFGHIJKLMNOPQRSTUVWXYZabcdefghijklmnopqrstuvwxyz0123456789+/".toList

/-- The base64 digit for a 6-bit value. -/
def b64char (n : Nat) : Char := b64chars.getD n 'A'

/-- RFC 4648 base64 of a byte list, three bytes at a time with `=` padding. -/
def b64encodeAux : List Nat → List Char
  | [] => []
  | [a] => [b64char (a / 4), b64char (a % 4 * 16), '=', '=']
  | [a, b] => [b64char (a / 4), b64char (a % 4 * 16 + b / 16), b64char (b % 16 * 4), '=']
  | a :: b :: c :: rest =>
      b64char (a / 4) :: b64char (a % 4 * 16 + b / 16) ::
      b64char (b % 16 * 4 + c / 64) :: b64char (c % 64) :: b64encodeAux rest

/-- Models `base64.b64encode(data).decode("utf-8")`. -/
def b64encode (bs : List Nat) : String := String.mk (b64encodeAux bs)

/-- A JSON value placed in an outgoing request payload by a builder. -/
inductive JVal where
  | s (v : String)
  | i (v : Int)
  | b (v : Bool)
  | iarr (v : List Int)
  | sarr (v : List String)
  | rat (v : Rat)
  deriving DecidableEq, Repr

/-- An outgoing JSON request body: keys in insertion order, as the Python
builders construct their `data` dict. -/
abbrev Payload := List (String × JVal)

/-- Membership of a key in a payload (`'k' in data`). -/
def hasKey (d : Payload) (k : String) : Bool := d.any (fun p => p.1 == k)

/-- The value stored under a key (`data['k']`), first occurrence. -/
def getKey (d : Payload) (k : String) : Option JVal :=
  (d.find? (fun p => p.1 == k)).map Prod.snd

/-- How a builder invocation fails before reaching the network:
`missingCredential` is the `ValueError` raised when neither the argument nor
the environment supplies an API key; `invalidInput` the `ValueError` raised
when neither image source is given; `typeError` the unhandled `TypeError`
out of `base64.b64encode(None)`. -/
inductive BErr where
  | missingCredential
  | invalidInput
  | typeError
  deriving DecidableEq, Repr

/-! ## Result poller (src/app.py, `check_generated_images` / `auto_check_images`) -/

/-- Outcome of one `requests.head(url)` call: a status code, or a raised
transport exception. -/
inductive HeadOutcome where
  | status (code : Nat)
  | exn
  deriving DecidableEq, Repr

/-- The sweep classifies a URL ready exactly when the HEAD call returned
status 200; a raised exception is swallowed by the `except` clause and the
URL stays pending. -/
def isReady : HeadOutcome → Bool
  | .status c => c == 200
  | .exn => false

/-- The session-scoped poll state: `pending_urls`, the displayed
`edited_image` slot, and the multi-result `generated_images` list. -/
structure PollState where
  pending_urls : List String
  edited_image : Option String
  generated_images : List String
  deriving DecidableEq, Repr

/-- Models `check_generated_images` (src/app.py lines 95-122): one sweep over
the pending URLs against a HEAD oracle.  Returns (whether any URL became
ready, the updated state, the URLs actually HEAD-checked).  The function is
total: a raised HEAD exception is an oracle value (`HeadOutcome.exn`), so the
sweep itself never fails, mirroring the `try/except` that swallows every
transport error. -/
def check_generated_images (head : String → HeadOutcome) (st : PollState) :
    Bool × PollState × List String :=
  if st.pending_urls.isEmpty then
    (false, st, [])
  else
    let ready_images := st.pending_urls.filter (fun u => isReady (head u))
    let still_pending := st.pending_urls.filter (fun u => !(isReady (head u)))
    let st1 : PollState := { st with pending_urls := still_pending }
    match ready_images with
    | [] => (false, st1, st.pending_urls)
    | first :: rest =>
        let st2 : PollState := { st1 with edited_image := some first }
        let st3 : PollState :=
          if rest.isEmpty then st2
          else { st2 with generated_images := first :: rest }
        (true, st3, st.pending_urls)

/-- Models the `while attempt < max_attempts and st.session_state.pending_urls`
loop of `auto_check_images` (src/app.py lines 124-134): the HEAD oracle may
differ per sweep, indexed by the number of sweeps already performed.  Returns
(whether a sweep found a ready URL, the final state, sweeps performed). -/
def auto_check_loop (headAt : Nat → String → HeadOutcome) :
    Nat → Nat → PollState → Bool × PollState × Nat
  | _, 0, st => (false, st, 0)
  | sweepIdx, Nat.succ remaining, st =>
      if st.pending_urls.isEmpty then (false, st, 0)
      else
        match check_generated_images (headAt sweepIdx) st with
        | (found, st1, _) =>
            if found then (true, st1, 1)
            else
              match auto_check_loop headAt (sweepIdx + 1) remaining st1 with
              | (res, st2, n) => (res, st2, n + 1)

/-- Models `auto_check_images` (src/app.py lines 124-134): up to 3 sweeps
(`max_attempts = 3`), stopping early when a sweep finds a ready URL or the
pending set empties; the 2-second sleeps do not affect state. -/
def auto_check_images (headAt : Nat → String → HeadOutcome) (st : PollState) :
    Bool × PollState × Nat :=
  auto_check_loop headAt 0 3 st

/-! ## Request builders (src/services/*.py)

Each builder takes its Python arguments in signature order, plus an explicit
`env_key` modelling `os.getenv("BRIA_API_KEY")`.  It returns the JSON body it
would POST, or the error it raises before reaching the network. -/

/-- Models `add_shadow` (src/services/shadow.py lines 13-95) up to the POST:
credential resolution, image-source validation, and the payload built in
source order.  Python signature defaults: `shadow_type="regular"`,
`shadow_color="#000000"`, `shadow_offset=[0, 15]`, `shadow_intensity=60`,
`shadow_blur=None`, `shadow_width=None`, `shadow_height=70`. -/
def add_shadow (api_key env_key : Option String)
    (image_data : Option (List Nat)) (image_url : Option String)
    (shadow_type : String) (background_color : Option String)
    (shadow_color : String) (shadow_offset : List Int)
    (shadow_intensity : Int) (shadow_blur shadow_width shadow_height : Option Int)
    (sku : Option String) (force_rmbg content_moderation : Bool) :
    Except BErr Payload :=
  let key := pyOr api_key env_key
  if !(pyStrTruthy key) then Except.error BErr.missingCredential
  else
    let data : Payload :=
      [("shadow_type", JVal.s shadow_type), ("shadow_color", JVal.s shadow_color),
       ("shadow_intensity", JVal.i shadow_intensity), ("force_rmbg", JVal.b force_rmbg),
       ("content_moderation", JVal.b content_moderation),
       ("shadow_offset", JVal.iarr shadow_offset)]
    let withImg : Except BErr Payload :=
      if pyStrTruthy image_url then
        Except.ok (data ++ [("image_url", JVal.s (image_url.getD ""))])
      else if pyBytesTruthy image_data then
        Except.ok (data ++ [("file", JVal.s (b64encode (image_data.getD [])))])
      else Except.error BErr.invalidInput
    match withImg with
    | Except.error e => Except.error e
    | Except.ok d0 =>
        let d1 := if pyStrTruthy background_color then
            d0 ++ [("background_color", JVal.s (background_color.getD ""))] else d0
        let d2 := match shadow_blur with
          | some v => d1 ++ [("shadow_blur", JVal.i v)]
          | none => d1
        let d3 := match shadow_width with
          | some v => d2 ++ [("shadow_width", JVal.i v)]
          | none => d2
        let d4 := match shadow_height with
          | some v => d3 ++ [("shadow_height", JVal.i v)]
          | none => d3
        let d5 := if pyStrTruthy sku then d4 ++ [("sku", JVal.s (sku.getD ""))] else d4
        Except.ok d5

/-- Models `create_packshot` (src/services/packshot.py lines 14-63):
credential resolution, then `base64.b64encode(image_data)` with no presence
check (a `None` image raises `TypeError`), then the payload. -/
def create_packshot (image_data : Option (List Nat)) (background_color : String)
    (sku : Option String) (force_rmbg content_moderation : Bool)
    (api_key env_key : Option String) : Except BErr Payload :=
  let key := pyOr api_key env_key
  if !(pyStrTruthy key) then Except.error BErr.missingCredential
  else
    match image_data with
    | none => Except.error BErr.typeError
    | some bs =>
        let data : Payload :=
          [("file", JVal.s (b64encode bs)), ("background_color", JVal.s background_color),
           ("force_rmbg", JVal.b force_rmbg), ("content_moderation", JVal.b content_moderation)]
        Except.ok (if pyStrTruthy sku then data ++ [("sku", JVal.s (sku.getD ""))] else data)

/-- Models `erase_foreground` (src/services/erase_foreground.py lines 14-54):
credential resolution, the explicit image-source validation, then the payload. -/
def erase_foreground (api_key env_key : Option String)
    (image_data : Option (List Nat)) (image_url : Option String)
    (content_moderation : Bool) : Except BErr Payload :=
  let key := pyOr api_key env_key
  if !(pyStrTruthy key) then Except.error BErr.missingCredential
  else if !(pyBytesTruthy image_data) && !(pyStrTruthy image_url) then
    Except.error BErr.invalidInput
  else
    let data : Payload := [("content_moderation", JVal.b content_moderation)]
    if pyStrTruthy image_url then
      Except.ok (data ++ [("image_url", JVal.s (image_url.getD ""))])
    else
      Except.ok (data ++ [("file", JVal.s (b64encode (image_data.getD [])))])

/-- Models `generative_fill` (src/services/generative_fills.py lines 14-71):
credential resolution, then the two unchecked `b64encode` calls (image first,
then mask: a `None` value raises `TypeError`), then the payload with
`num_results` clamped by `max(1, min(num_results, 4))`. -/
def generative_fill (api_key env_key : Option String)
    (image_data mask_data : Option (List Nat)) (prompt : String)
    (negative_prompt : Option String) (num_results : Int) (sync : Bool)
    (seed : Option Int) (content_moderation : Bool) (mask_type : String) :
    Except BErr Payload :=
  let key := pyOr api_key env_key
  if !(pyStrTruthy key) then Except.error BErr.missingCredential
  else
    match image_data with
    | none => Except.error BErr.typeError
    | some img =>
        match mask_data with
        | none => Except.error BErr.typeError
        | some msk =>
            let data : Payload :=
              [("file", JVal.s (b64encode img)), ("mask_file", JVal.s (b64encode msk)),
               ("mask_type", JVal.s mask_type), ("prompt", JVal.s prompt),
               ("num_results", JVal.i (max 1 (min num_results 4))),
               ("sync", JVal.b sync), ("content_moderation", JVal.b content_moderation)]
            let d1 := if pyStrTruthy negative_prompt then
                data ++ [("negative_prompt", JVal.s (negative_prompt.getD ""))] else data
            let d2 := match seed with
              | some v => d1 ++ [("seed", JVal.i v)]
              | none => d1
            Except.ok d2

/-- The unconditional part of the lifestyle-by-text payload
(src/services/lifestyle_shot.py lines 72-83). -/
def lifestyleTextBase (img : List Nat) (scene_description placement_type : String)
    (num_results : Int) (sync fast optimize_description original_quality
      force_rmbg content_moderation : Bool) : Payload :=
  [("file", JVal.s (b64encode img)),
   ("scene_description", JVal.s scene_description),
   ("placement_type", JVal.s placement_type),
   ("num_results", JVal.i num_results), ("sync", JVal.b sync),
   ("fast", JVal.b fast),
   ("optimize_description", JVal.b optimize_description),
   ("original_quality", JVal.b original_quality),
   ("force_rmbg", JVal.b force_rmbg),
   ("content_moderation", JVal.b content_moderation)]

/-- Lines 86-87: `exclude_elements` joins the payload only when it is truthy
and `fast` is `False`. -/
def lifestyleTextAddExclude (d : Payload) (exclude_elements : Option String)
    (fast : Bool) : Payload :=
  if pyStrTruthy exclude_elements && !fast then
    d ++ [("exclude_elements", JVal.s (exclude_elements.getD ""))] else d

/-- Lines 88-98: the placement-type-dependent optional fields, in source
order. -/
def lifestyleTextAddPlacement (d : Payload) (placement_type : String)
    (shot_size : List Int) (manual_placement_selection : List String)
    (padding_values : List Int)
    (foreground_image_size foreground_image_location : Option (List Int)) :
    Payload :=
  let d2 := if placement_type == "automatic" || placement_type == "manual_placement"
        || placement_type == "custom_coordinates" then
      d ++ [("shot_size", JVal.iarr shot_size)] else d
  let d3 := if placement_type == "manual_placement" then
      d2 ++ [("manual_placement_selection", JVal.sarr manual_placement_selection)] else d2
  let d4 := if placement_type == "manual_padding" then
      d3 ++ [("padding_values", JVal.iarr padding_values)] else d3
  if placement_type == "custom_coordinates" then
    (let a := if pyIListTruthy foreground_image_size then
        d4 ++ [("foreground_image_size", JVal.iarr (foreground_image_size.getD []))] else d4
     if pyIListTruthy foreground_image_location then
        a ++ [("foreground_image_location", JVal.iarr (foreground_image_location.getD []))] else a)
  else d4

/-- Lines 99-100: `sku` joins the payload only when truthy. -/
def addSku (d : Payload) (sku : Option String) : Payload :=
  if pyStrTruthy sku then d ++ [("sku", JVal.s (sku.getD ""))] else d

/-- Models `lifestyle_shot_by_text` (src/services/lifestyle_shot.py lines
15-100): credential resolution, the unchecked `b64encode(image_data)`, then
the payload assembled statement by statement (the helper functions above
follow the source lines). -/
def lifestyle_shot_by_text (api_key env_key : Option String)
    (image_data : Option (List Nat)) (scene_description placement_type : String)
    (num_results : Int) (sync fast optimize_description original_quality : Bool)
    (exclude_elements : Option String) (shot_size : List Int)
    (manual_placement_selection : List String) (padding_values : List Int)
    (foreground_image_size foreground_image_location : Option (List Int))
    (force_rmbg content_moderation : Bool) (sku : Option String) :
    Except BErr Payload :=
  let key := pyOr api_key env_key
  if !(pyStrTruthy key) then Except.error BErr.missingCredential
  else
    match image_data with
    | none => Except.error BErr.typeError
    | some img =>
        Except.ok (addSku
          (lifestyleTextAddPlacement
            (lifestyleTextAddExclude
              (lifestyleTextBase img scene_description placement_type
                num_results sync fast optimize_description original_quality
                force_rmbg content_moderation)
              exclude_elements fast)
            placement_type shot_size manual_placement_selection padding_values
            foreground_image_size foreground_image_location)
          sku)

/-- Models `lifestyle_shot_by_image` (src/services/lifestyle_shot.py lines
128-210): credential resolution, the two unchecked `b64encode` calls
(product image first, then reference image), then the payload in source
order.  `ref_image_influence` (a Python float) is carried as a rational. -/
def lifestyle_shot_by_image (api_key env_key : Option String)
    (image_data reference_image : Option (List Nat)) (placement_type : String)
    (num_results : Int) (sync original_quality : Bool) (shot_size : List Int)
    (manual_placement_selection : List String) (padding_values : List Int)
    (foreground_image_size foreground_image_location : Option (List Int))
    (force_rmbg content_moderation : Bool) (sku : Option String)
    (enhance_ref_image : Bool) (ref_image_influence : Rat) :
    Except BErr Payload :=
  let key := pyOr api_key env_key
  if !(pyStrTruthy key) then Except.error BErr.missingCredential
  else
    match image_data with
    | none => Except.error BErr.typeError
    | some img =>
        match reference_image with
        | none => Except.error BErr.typeError
        | some ref =>
            let data : Payload :=
              [("file", JVal.s (b64encode img)),
               ("ref_image_file", JVal.s (b64encode ref)),
               ("placement_type", JVal.s placement_type),
               ("num_results", JVal.i num_results), ("sync", JVal.b sync),
               ("original_quality", JVal.b original_quality),
               ("force_rmbg", JVal.b force_rmbg),
               ("content_moderation", JVal.b content_moderation),
               ("enhance_ref_image", JVal.b enhance_ref_image),
               ("ref_image_influence", JVal.rat ref_image_influence)]
            let d2 := if placement_type == "automatic" || placement_type == "manual_placement"
                  || placement_type == "custom_coordinates" then
                data ++ [("shot_size", JVal.iarr shot_size)] else data
            let d3 := if placement_type == "manual_placement" then
                d2 ++ [("manual_placement_selection", JVal.sarr manual_placement_selection)] else d2
            let d4 := if placement_type == "manual_padding" then
                d3 ++ [("padding_values", JVal.iarr padding_values)] else d3
            let d5 := if placement_type == "custom_coordinates" then
                (let a := if pyIListTruthy foreground_image_size then
                    d4 ++ [("foreground_image_size", JVal.iarr (foreground_image_size.getD []))] else d4
                 if pyIListTruthy foreground_image_location then
                    a ++ [("foreground_image_location", JVal.iarr (foreground_image_location.getD []))] else a)
              else d4
            let d6 := if pyStrTruthy sku then d5 ++ [("sku", JVal.s (sku.getD ""))] else d5
            Except.ok d6

/-! ## Prompt enhancement (src/services/prompt_enhancement.py) -/

/-- Outcome of the chat-completion call in `enhance_prompt`: either some
exception was raised during the call (network, API, or anything else inside
the `try`), or it returned, with `completion.choices[0].message.content`
being `None` or a string. -/
inductive ChatOutcome where
  | exn
  | reply (content : Option String)
  deriving DecidableEq, Repr

/-- Models `enhance_prompt` (src/services/prompt_enhancement.py lines
16-78).  `client_api_key` is the `OPENROUTER_API_KEY` the module-level
client was built with.  A falsy key logs and returns the input; a raised
exception is caught and returns the input; a `None` content raises
`AttributeError` at `.strip()`, also caught; an all-whitespace reply strips
to the empty string, which is falsy, returning the input; otherwise the
stripped reply is returned.  The function always returns a string. -/
def enhance_prompt (client_api_key : Option String) (outcome : ChatOutcome)
    (prompt : String) : String :=
  if !(pyStrTruthy client_api_key) then prompt
  else
    match outcome with
    | ChatOutcome.exn => prompt
    | ChatOutcome.reply none => prompt
    | ChatOutcome.reply (some c) =>
        let enhanced := c.trim
        if enhanced.isEmpty then prompt else enhanced

/-! ## Sync-mode response normalizers (src/app.py) -/

/-- A JSON value of a decoded API response. -/
inductive JsonV where
  | str (s : String)
  | num (n : Int)
  | bool (b : Bool)
  | arr (elems : List JsonV)
  | obj (fields : List (String × JsonV))
  | null

/-- Lookup in a decoded JSON object: `"k" in result` holds exactly when this
is `some`, and `result["k"]` is the held value. -/
def lookupJ (fields : List (String × JsonV)) (k : String) : Option JsonV :=
  (fields.find? (fun p => p.1 == k)).map Prod.snd

/-- Python `value[0]`: the first element of a list or first character of a
string; an empty or non-indexable value raises (IndexError/TypeError),
modelled as the error case. -/
def jIndex0 : JsonV → Except Unit JsonV
  | JsonV.arr (x :: _) => Except.ok x
  | JsonV.str s =>
      match s.toList with
      | [] => Except.error ()
      | c :: _ => Except.ok (JsonV.str (String.mk [c]))
  | _ => Except.error ()

/-- Python truthiness of a JSON value: `None`, `False`, `0`, `""`, `[]` and
`{}` are falsy. -/
def jTruthy : JsonV → Bool
  | JsonV.str s => !s.isEmpty
  | JsonV.num n => n != 0
  | JsonV.bool b => b
  | JsonV.arr l => !l.isEmpty
  | JsonV.obj f => !f.isEmpty
  | JsonV.null => false

/-- Models the `for item in result["result"]` loop of the lifestyle sync
normalizer (src/app.py lines 476-484): a dict item with a `urls` key yields
that list's first element, a non-empty list item yields its first element,
anything else is skipped; the loop ends with no match otherwise. -/
def scanResultItems : List JsonV → Except Unit (Option JsonV)
  | [] => Except.ok none
  | item :: rest =>
      match item with
      | JsonV.obj f =>
          match lookupJ f "urls" with
          | some v => (jIndex0 v).map some
          | none => scanResultItems rest
      | JsonV.arr (x :: _) => Except.ok (some x)
      | _ => scanResultItems rest

/-- Models the sync-mode normalization at the lifestyle call sites
(src/app.py lines 467-487 and 568-588, which are identical): the chain
`result_url`, then `result_urls[0]`, then the `result` list scan, then
`urls[0]`.  `some u` is the value stored into `edited_image`; `none` leaves
it unchanged; the error case is a raised IndexError. -/
def sync_normalize_lifestyle (fields : List (String × JsonV)) :
    Except Unit (Option JsonV) :=
  match lookupJ fields "result_url" with
  | some v => Except.ok (some v)
  | none =>
      match lookupJ fields "result_urls" with
      | some v => (jIndex0 v).map some
      | none =>
          match lookupJ fields "result" with
          | some (JsonV.arr items) => scanResultItems items
          | some _ =>
              match lookupJ fields "urls" with
              | some v => (jIndex0 v).map some
              | none => Except.ok none
          | none =>
              match lookupJ fields "urls" with
              | some v => (jIndex0 v).map some
              | none => Except.ok none

/-- Models the sync-mode normalization at the generative-fill call site
(src/app.py lines 780-788): `if "urls" in result and result["urls"]` takes
`urls[0]` FIRST, and only the `elif` falls back to `result_url`. -/
def sync_normalize_genfill (fields : List (String × JsonV)) :
    Except Unit (Option JsonV) :=
  match lookupJ fields "urls" with
  | some v =>
      if jTruthy v then (jIndex0 v).map some
      else
        match lookupJ fields "result_url" with
        | some u => Except.ok (some u)
        | none => Except.ok none
  | none =>
      match lookupJ fields "result_url" with
      | some u => Except.ok (some u)
      | none => Except.ok none

/-! ## Theorems -/

/-- Unfolding lemma: a `None` string argument is falsy. -/
theorem pyStrTruthy_none : pyStrTruthy none = false := rfl

/-- Unfolding lemma: a `None` bytes argument is falsy. -/
theorem pyBytesTruthy_none : pyBytesTruthy none = false := rfl

/-- C8: running a manual check sweep with an empty pending set is a no-op:
it performs no HEAD requests (third component `[]`), leaves the pending set,
the displayed image and the multi-result list unchanged, and reports `false`
(nothing became ready). -/
theorem manual_check_empty_pending_noop (head : String → HeadOutcome)
    (e0 : Option String) (g0 : List String) :
    check_generated_images head (PollState.mk [] e0 g0)
      = (false, PollState.mk [] e0 g0, []) := rfl

/-- C5: in every sweep, the URLs left pending are exactly those whose HEAD
outcome is not ready; a HEAD outcome is ready iff it is a status of exactly
200 (so any other status, and any raised transport exception
`HeadOutcome.exn`, keeps the URL pending).  The sweep itself is a total
function — the `try/except` swallows every HEAD failure, so no sweep ever
raises to its caller. -/
theorem sweep_ready_classification (head : String → HeadOutcome) (st : PollState) :
    (check_generated_images head st).2.1.pending_urls
        = st.pending_urls.filter (fun u => !(isReady (head u)))
    ∧ (∀ c, isReady (HeadOutcome.status c) = true ↔ c = 200)
    ∧ isReady HeadOutcome.exn = false := by
  refine ⟨?_, fun c => by simp [isReady], rfl⟩
  unfold check_generated_images
  split
  · next h =>
    rw [List.isEmpty_iff] at h
    rw [h]
    rfl
  · dsimp only
    cases List.filter (fun u => isReady (head u)) st.pending_urls with
    | nil => rfl
    | cons first rest =>
        dsimp only
        split <;> rfl

/-- C7: prompt enhancement never propagates a failure.  With a missing
client credential, a raised exception during the chat call, or a `None`
reply content, the original prompt is returned unchanged; and in every case
the result is either the original prompt or the non-empty stripped reply (a
string in all cases, by the return type). -/
theorem enhance_prompt_best_effort (ck : Option String) (oc : ChatOutcome)
    (p : String) :
    (pyStrTruthy ck = false → enhance_prompt ck oc p = p)
    ∧ (oc = ChatOutcome.exn → enhance_prompt ck oc p = p)
    ∧ (oc = ChatOutcome.reply none → enhance_prompt ck oc p = p)
    ∧ (enhance_prompt ck oc p = p
        ∨ ∃ c, oc = ChatOutcome.reply (some c) ∧ enhance_prompt ck oc p = c.trim
            ∧ c.trim ≠ "") := by
  refine ⟨?_, ?_, ?_, ?_⟩
  · intro h; simp [enhance_prompt, h]
  · intro h; subst h; simp [enhance_prompt]
  · intro h; subst h; simp [enhance_prompt]
  · match oc with
    | ChatOutcome.exn => exact Or.inl (by simp [enhance_prompt])
    | ChatOutcome.reply none => exact Or.inl (by simp [enhance_prompt])
    | ChatOutcome.reply (some c) =>
        cases hk : pyStrTruthy ck with
        | false => exact Or.inl (by simp [enhance_prompt, hk])
        | true =>
            by_cases he : c.trim.isEmpty
            · exact Or.inl (by simp [enhance_prompt, hk, he])
            · refine Or.inr ⟨c, rfl, by simp [enhance_prompt, hk, he], ?_⟩
              intro hEq
              exact he (by rw [hEq]; rfl)

/-- C4: with exactly three pending URLs where the first and third are never
ready and the second first returns 200 on the second sweep, the auto-check
wrapper ends with `edited_image = u2` displayed, `pending_urls = [u1, u3]`,
the multi-result list untouched, and exactly 2 sweeps performed (it stops
early on the sweep where u2 became ready, within the 3-sweep cap). -/
theorem auto_check_second_sweep_scenario (u1 u2 u3 : String) (e0 : Option String)
    (g0 : List String) (headAt : Nat → String → HeadOutcome)
    (h1 : ∀ k, isReady (headAt k u1) = false)
    (h3 : ∀ k, isReady (headAt k u3) = false)
    (h20 : isReady (headAt 0 u2) = false)
    (h21 : isReady (headAt 1 u2) = true) :
    auto_check_images headAt (PollState.mk [u1, u2, u3] e0 g0)
      = (true, PollState.mk [u1, u3] (some u2) g0, 2) := by
  simp [auto_check_images, auto_check_loop, check_generated_images,
    List.filter_cons, h1, h3, h20, h21]

/-- HEAD oracle for the C4 witness: `u2` is ready exactly on sweep index 1,
everything else always answers 404. -/
def headOracleC4 (k : Nat) (u : String) : HeadOutcome :=
  if u == "u2" && k == 1 then HeadOutcome.status 200 else HeadOutcome.status 404

/-- Witness for C4 at a concrete oracle and URL triple. -/
theorem auto_check_second_sweep_scenario_witness :
    auto_check_images headOracleC4 (PollState.mk ["u1", "u2", "u3"] none [])
      = (true, PollState.mk ["u1", "u3"] (some "u2") [], 2) :=
  auto_check_second_sweep_scenario "u1" "u2" "u3" none [] headOracleC4
    (fun k => by simp [headOracleC4, isReady])
    (fun k => by simp [headOracleC4, isReady])
    (by decide)
    (by decide)

/-- The `add_shadow` call that C1 describes as the "regular" case: shadow
type "regular" with every optional argument left at its Python signature
default (`shadow_width=None`, `shadow_height=70`), the image given by URL. -/
def shadowRegularDefaultCall : Except BErr Payload :=
  add_shadow (some "key") none none (some "http://img.png") "regular" none
    "#000000" [0, 15] 60 none none (some 70) none false false

/-- C1 counterexample: calling the shadow builder with `shadow_type =
"regular"` and no explicit `shadow_width`/`shadow_height` produces a payload
that DOES contain a `shadow_height` key (value 70, from the signature
default), contradicting the claim that neither key appears. -/
theorem shadow_regular_defaults_contains_height :
    shadowRegularDefaultCall.map (fun d => hasKey d "shadow_height")
        = Except.ok true
    ∧ shadowRegularDefaultCall.map (fun d => getKey d "shadow_height")
        = Except.ok (some (JVal.i 70))
    ∧ shadowRegularDefaultCall.map (fun d => hasKey d "shadow_width")
        = Except.ok false := ⟨rfl, rfl, rfl⟩

/-- C1 amended: for EVERY shadow type (so both "float" and "regular"), a
call with no explicit `shadow_width`/`shadow_height` — i.e. the Python
signature defaults `shadow_width=None`, `shadow_height=70` — produces a
payload containing `shadow_height = 70` and no `shadow_width` key: the
70 default applies regardless of shadow type, so only the "float" half of
the original claim held. -/
theorem shadow_default_height_any_type (akey ekey url : Option String)
    (ty : String) (hk : pyStrTruthy (pyOr akey ekey) = true)
    (hu : pyStrTruthy url = true) :
    ∃ d, add_shadow akey ekey none url ty none "#000000" [0, 15] 60 none none
          (some 70) none false false = Except.ok d
        ∧ getKey d "shadow_height" = some (JVal.i 70)
        ∧ hasKey d "shadow_width" = false := by
  have e1 : add_shadow akey ekey none url ty none "#000000" [0, 15] 60 none
        none (some 70) none false false
      = Except.ok
          [("shadow_type", JVal.s ty), ("shadow_color", JVal.s "#000000"),
           ("shadow_intensity", JVal.i 60), ("force_rmbg", JVal.b false),
           ("content_moderation", JVal.b false),
           ("shadow_offset", JVal.iarr [0, 15]),
           ("image_url", JVal.s (url.getD "")),
           ("shadow_height", JVal.i 70)] := by
    simp only [add_shadow, hk, hu, Bool.not_true, Bool.false_eq_true, if_false]
    rfl
  exact ⟨_, e1, rfl, rfl⟩

/-- Witness for the amended C1 at shadow type "float" and a concrete key
and image URL. -/
theorem shadow_default_height_any_type_witness :
    ∃ d, add_shadow (some "key") none none (some "http://img.png") "float"
          none "#000000" [0, 15] 60 none none (some 70) none false false
          = Except.ok d
        ∧ getKey d "shadow_height" = some (JVal.i 70)
        ∧ hasKey d "shadow_width" = false :=
  shadow_default_height_any_type (some "key") none (some "http://img.png")
    "float" (by decide) (by decide)

/-- C3 counterexample: with the OPENROUTER credential absent, the
prompt-enhancement call does NOT fail with a MissingCredential error (its
type admits no error at all): it returns the original prompt "hello"
unchanged, even though the chat backend would have answered. -/
theorem enhance_prompt_missing_key_no_error :
    enhance_prompt none (ChatOutcome.reply (some "better prompt")) "hello"
      = "hello" := rfl

/-- C3 amended: when the caller supplies no credential and the environment
credential is also absent, each of the six image-API builders (shadow,
packshot, erase-foreground, generative-fill, lifestyle-by-text,
lifestyle-by-image) fails with MissingCredential before any network call;
prompt enhancement is the exception: with its credential absent it does not
fail but returns the original input prompt unchanged. -/
theorem builders_missing_credential (akey ekey : Option String)
    (hk : pyStrTruthy (pyOr akey ekey) = false)
    (img msk ref : Option (List Nat)) (url bgO ex sku np : Option String)
    (ty scol bg sc pt mt pr p : String) (off ss pv : List Int)
    (inten nr : Int) (blur w ht seed : Option Int) (mps : List String)
    (fgs fgl : Option (List Int)) (b1 b2 b3 b4 b5 b6 : Bool) (infl : Rat)
    (rk : Option String) (hrk : pyStrTruthy rk = false) (oc : ChatOutcome) :
    add_shadow akey ekey img url ty bgO scol off inten blur w ht sku b1 b2
        = Except.error BErr.missingCredential
    ∧ create_packshot img bg sku b1 b2 akey ekey
        = Except.error BErr.missingCredential
    ∧ erase_foreground akey ekey img url b1
        = Except.error BErr.missingCredential
    ∧ generative_fill akey ekey img msk pr np nr b1 seed b2 mt
        = Except.error BErr.missingCredential
    ∧ lifestyle_shot_by_text akey ekey img sc pt nr b1 b2 b3 b4 ex ss mps pv
          fgs fgl b5 b6 sku
        = Except.error BErr.missingCredential
    ∧ lifestyle_shot_by_image akey ekey img ref pt nr b1 b2 ss mps pv fgs fgl
          b3 b4 sku b5 infl
        = Except.error BErr.missingCredential
    ∧ enhance_prompt rk oc p = p := by
  refine ⟨?_, ?_, ?_, ?_, ?_, ?_, ?_⟩ <;>
    simp [add_shadow, create_packshot, erase_foreground, generative_fill,
      lifestyle_shot_by_text, lifestyle_shot_by_image, enhance_prompt, hk, hrk]

/-- Witness for the amended C3 with every credential argument and both
environment credentials absent. -/
theorem builders_missing_credential_witness :
    add_shadow none none none none "regular" none "#000000" [0, 15] 60 none
        none (some 70) none false false
        = Except.error BErr.missingCredential
    ∧ create_packshot none "#FFFFFF" none false false none none
        = Except.error BErr.missingCredential
    ∧ erase_foreground none none none none false
        = Except.error BErr.missingCredential
    ∧ generative_fill none none none none "p" none 4 false none false "manual"
        = Except.error BErr.missingCredential
    ∧ lifestyle_shot_by_text none none none "s" "original" 4 false true true
          false none [1000, 1000] ["upper_left"] [0, 0, 0, 0] none none false
          false none
        = Except.error BErr.missingCredential
    ∧ lifestyle_shot_by_image none none none none "original" 4 false false
          [1000, 1000] ["upper_left"] [0, 0, 0, 0] none none false false none
          true 1
        = Except.error BErr.missingCredential
    ∧ enhance_prompt none (ChatOutcome.reply (some "x")) "p" = "p" :=
  builders_missing_credential none none (by decide) none none none none none
    none none none "regular" "#000000" "#FFFFFF" "s" "original" "manual" "p"
    "p" [0, 15] [1000, 1000] [0, 0, 0, 0] 60 4 none (some 70) none none
    ["upper_left"] none none false true true false false false 1 none
    (by decide) (ChatOutcome.reply (some "x"))

/-- C6: for the two builders that accept either inline bytes or a remote
URL (shadow, erase-foreground), a call with both `image_data` and
`image_url` absent, under a resolving credential, fails with InvalidInput;
the error is returned before the POST stage (the builder never reaches an
ok payload). -/
theorem builders_missing_image_invalid_input (akey ekey : Option String)
    (hk : pyStrTruthy (pyOr akey ekey) = true) (ty scol : String)
    (bgO : Option String) (off : List Int) (inten : Int)
    (blur w ht : Option Int) (sku : Option String) (b1 b2 b3 : Bool) :
    add_shadow akey ekey none none ty bgO scol off inten blur w ht sku b1 b2
        = Except.error BErr.invalidInput
    ∧ erase_foreground akey ekey none none b3
        = Except.error BErr.invalidInput := by
  constructor <;>
    simp [add_shadow, erase_foreground, hk, pyStrTruthy_none, pyBytesTruthy_none]

/-- Witness for C6 with a concrete credential and default options. -/
theorem builders_missing_image_invalid_input_witness :
    add_shadow (some "key") none none none "regular" none "#000000" [0, 15]
        60 none none (some 70) none false false
        = Except.error BErr.invalidInput
    ∧ erase_foreground (some "key") none none none false
        = Except.error BErr.invalidInput :=
  builders_missing_image_invalid_input (some "key") none (by decide)
    "regular" "#000000" none [0, 15] 60 none none (some 70) none false false
    false

/-- C10: the packshot, generative-fill and both lifestyle builders perform
no presence check on their binary payload arguments: with a resolving
credential and a `None` image (`None` mask for generative fill), each fails
with the unhandled TypeError out of `base64.b64encode(None)` — a different
failure from the InvalidInput the shadow/erase builders raise — and the
failure still occurs before any network call (the builder returns an error,
never an ok payload). -/
theorem builders_unchecked_bytes_type_error (akey ekey : Option String)
    (hk : pyStrTruthy (pyOr akey ekey) = true) (img : List Nat)
    (bg sc pt mt pr : String) (np ex sku : Option String) (nr : Int)
    (seed : Option Int) (ss pv : List Int) (mps : List String)
    (fgs fgl : Option (List Int)) (b1 b2 b3 b4 b5 b6 : Bool) (infl : Rat) :
    create_packshot none bg sku b1 b2 akey ekey = Except.error BErr.typeError
    ∧ generative_fill akey ekey (some img) none pr np nr b1 seed b2 mt
        = Except.error BErr.typeError
    ∧ lifestyle_shot_by_text akey ekey none sc pt nr b1 b2 b3 b4 ex ss mps pv
          fgs fgl b5 b6 sku
        = Except.error BErr.typeError
    ∧ lifestyle_shot_by_image akey ekey none (some img) pt nr b1 b2 ss mps pv
          fgs fgl b3 b4 sku b5 infl
        = Except.error BErr.typeError := by
  refine ⟨?_, ?_, ?_, ?_⟩ <;>
    simp [create_packshot, generative_fill, lifestyle_shot_by_text,
      lifestyle_shot_by_image, hk]

/-- Witness for C10 with a concrete credential and concrete options. -/
theorem builders_unchecked_bytes_type_error_witness :
    create_packshot none "#FFFFFF" none false false (some "key") none
        = Except.error BErr.typeError
    ∧ generative_fill (some "key") none (some [1, 2]) none "p" none 4 false
          none false "manual"
        = Except.error BErr.typeError
    ∧ lifestyle_shot_by_text (some "key") none none "s" "original" 4 false
          true true false none [1000, 1000] ["upper_left"] [0, 0, 0, 0] none
          none false false none
        = Except.error BErr.typeError
    ∧ lifestyle_shot_by_image (some "key") none none (some [1, 2]) "original"
          4 false false [1000, 1000] ["upper_left"] [0, 0, 0, 0] none none
          false false none true 1
        = Except.error BErr.typeError :=
  builders_unchecked_bytes_type_error (some "key") none (by decide) [1, 2]
    "#FFFFFF" "s" "original" "manual" "p" none none none 4 none [1000, 1000]
    [0, 0, 0, 0] ["upper_left"] none none false true true false false false 1

/-- Key membership distributes over payload concatenation. -/
theorem hasKey_append (x l : Payload) (k : String) :
    hasKey (x ++ l) k = (hasKey x k || hasKey l k) := by
  simp [hasKey, List.any_append]

/-- The sku step never introduces the `exclude_elements` key. -/
theorem hasKey_addSku_exclude (d : Payload) (sku : Option String) :
    hasKey (addSku d sku) "exclude_elements" = hasKey d "exclude_elements" := by
  unfold addSku
  split <;> simp [hasKey_append, hasKey]

/-- The placement step never introduces the `exclude_elements` key. -/
theorem hasKey_addPlacement_exclude (d : Payload) (pt : String)
    (ss : List Int) (mps : List String) (pv : List Int)
    (fgs fgl : Option (List Int)) :
    hasKey (lifestyleTextAddPlacement d pt ss mps pv fgs fgl)
        "exclude_elements"
      = hasKey d "exclude_elements" := by
  unfold lifestyleTextAddPlacement
  dsimp only
  split_ifs <;> simp [hasKey_append, hasKey]

/-- The exclude step adds the `exclude_elements` key exactly when
`exclude_elements` is truthy and `fast` is false. -/
theorem hasKey_addExclude (d : Payload) (ex : Option String) (fast : Bool) :
    hasKey (lifestyleTextAddExclude d ex fast) "exclude_elements"
      = (hasKey d "exclude_elements" || (pyStrTruthy ex && !fast)) := by
  unfold lifestyleTextAddExclude
  split
  · next h => simp [hasKey_append, hasKey, h]
  · next h =>
      rw [Bool.not_eq_true] at h
      simp [h]

/-- The unconditional payload part carries no `exclude_elements` key. -/
theorem hasKey_base_exclude (img : List Nat) (sc pt : String) (nr : Int)
    (b1 b2 b3 b4 b5 b6 : Bool) :
    hasKey (lifestyleTextBase img sc pt nr b1 b2 b3 b4 b5 b6)
        "exclude_elements" = false := by
  simp [lifestyleTextBase, hasKey]

/-- C9: in every successful lifestyle-by-text build, the payload contains
the `exclude_elements` key iff `exclude_elements` is truthy (non-`None`,
non-empty) AND `fast` is false — so with the default `fast=True` a supplied
`exclude_elements` is silently dropped from the request. -/
theorem lifestyle_text_exclude_elements_iff (akey ekey : Option String)
    (img : List Nat) (sc pt : String) (nr : Int) (b1 fast b3 b4 : Bool)
    (ex : Option String) (ss : List Int) (mps : List String) (pv : List Int)
    (fgs fgl : Option (List Int)) (b5 b6 : Bool) (sku : Option String)
    (d : Payload)
    (hok : lifestyle_shot_by_text akey ekey (some img) sc pt nr b1 fast b3 b4
        ex ss mps pv fgs fgl b5 b6 sku = Except.ok d) :
    hasKey d "exclude_elements" = (pyStrTruthy ex && !fast) := by
  by_cases hk : pyStrTruthy (pyOr akey ekey)
  · simp only [lifestyle_shot_by_text, hk, Bool.not_true, Bool.false_eq_true,
      if_false] at hok
    rw [Except.ok.injEq] at hok
    subst hok
    rw [hasKey_addSku_exclude, hasKey_addPlacement_exclude,
      hasKey_addExclude, hasKey_base_exclude, Bool.false_or]
  · simp only [Bool.not_eq_true] at hk
    simp [lifestyle_shot_by_text, hk] at hok

/-- The concrete C9 witness call: `fast = False` and a truthy
`exclude_elements`. -/
def lifestyleTextWitnessCall : Except BErr Payload :=
  lifestyle_shot_by_text (some "key") none (some [1]) "scene" "original" 4
    false false true false (some "no people") [1000, 1000] ["upper_left"]
    [0, 0, 0, 0] none none false false none

/-- The payload that the C9 witness call builds. -/
def lifestyleTextWitnessPayload : Payload :=
  match lifestyleTextWitnessCall with
  | Except.ok d => d
  | Except.error _ => []

/-- Witness for C9: the key is present exactly when the truthiness
condition computes to true. -/
theorem lifestyle_text_exclude_elements_iff_witness :
    hasKey lifestyleTextWitnessPayload "exclude_elements"
      = (pyStrTruthy (some "no people") && !false) :=
  lifestyle_text_exclude_elements_iff (some "key") none [1] "scene" "original"
    4 false false true false (some "no people") [1000, 1000] ["upper_left"]
    [0, 0, 0, 0] none none false false none lifestyleTextWitnessPayload
    (by rfl)

/-- The response of C2's precedence test: both a `result_url` key and a
`urls` key. -/
def respBothFields : List (String × JsonV) :=
  [("result_url", JsonV.str "A"), ("urls", JsonV.arr [JsonV.str "B"])]

/-- C2 counterexample: on {"result_url": "A", "urls": ["B"]}, the
generative-fill sync call site stores "B" — the `urls` head, NOT the
`result_url` value — while the lifestyle sync call sites store "A": the
precedence is not the same across all operations, and at the generative-fill
site rule 4 precedes rule 1. -/
theorem genfill_sync_urls_precede_result_url :
    sync_normalize_genfill respBothFields = Except.ok (some (JsonV.str "B"))
    ∧ sync_normalize_genfill respBothFields ≠ Except.ok (some (JsonV.str "A"))
    ∧ sync_normalize_lifestyle respBothFields
        = Except.ok (some (JsonV.str "A")) := by
  refine ⟨rfl, ?_, rfl⟩
  intro h
  rw [show sync_normalize_genfill respBothFields
      = Except.ok (some (JsonV.str "B")) from rfl] at h
  simp only [Except.ok.injEq, Option.some.injEq] at h
  injection h with h3
  exact absurd h3 (by decide)

/-- C2 amended: the precedence is fixed per call site but differs between
operations.  At the lifestyle sync call sites a `result_url` key always
wins; at the generative-fill sync call site a non-empty `urls` list wins
even when `result_url` is present. -/
theorem sync_precedence_not_uniform (fields : List (String × JsonV))
    (a b : JsonV) (bs : List JsonV)
    (hru : lookupJ fields "result_url" = some a)
    (hus : lookupJ fields "urls" = some (JsonV.arr (b :: bs))) :
    sync_normalize_lifestyle fields = Except.ok (some a)
    ∧ sync_normalize_genfill fields = Except.ok (some b) := by
  constructor
  · simp [sync_normalize_lifestyle, hru]
  · simp [sync_normalize_genfill, hus, jTruthy, jIndex0, Except.map]

/-- Witness for the amended C2 at the concrete two-key response. -/
theorem sync_precedence_not_uniform_witness :
    sync_normalize_lifestyle respBothFields = Except.ok (some (JsonV.str "A"))
    ∧ sync_normalize_genfill respBothFields
        = Except.ok (some (JsonV.str "B")) :=
  sync_precedence_not_uniform respBothFields (JsonV.str "A") (JsonV.str "B")
    [] (by rfl) (by rfl)

end AdSnap
